import Mathlib

/-!
Verification development for the orders API of observIQ/otel-tracing-example.

The repository has two Go source files:
  src/main.go     : HTTP server, the getOrder handler, shutdown logic
  src/db/redis.go : db.Client wrapping a redis connection (NewClient, Get, Close)

We shallowly embed the request-handling path.  The redis backend is modelled
as a function from keys to results; a result mirrors what
redisClient.Get(ctx, id).Result() returns in Go: a string value together with
an optional error, where the error is either the sentinel redis.Nil
(key absent) or a generic error carrying a message.  Tracing side effects
(span start/end, attributes, error records) and HTTP side effects (abort,
JSON write) are reified as an ordered event list produced alongside the
response, so that span-lifecycle and error-recording invariants become
statements about that list.
-/

namespace OtelOrders

/-- Error component of a redis Get result: the sentinel redis.Nil
(key absent), or any other error with its message. -/
inductive RedisErr where
  | nilErr : RedisErr
  | other (msg : String) : RedisErr
deriving DecidableEq, Repr

/-- What redisClient.Get(ctx, id).Result() returns in Go: a value string and
an optional error. -/
structure RedisResult where
  value : String
  err : Option RedisErr
deriving DecidableEq, Repr

/-- The redis backend as seen through single-key Get: a map from keys to
results. -/
def Store := String → RedisResult

/-- Go errors.Is(err, redis.Nil) for an optional error (the code never wraps
the sentinel, so this is an equality test on the variant). -/
def errIsNil : Option RedisErr → Bool
  | some RedisErr.nilErr => true
  | _ => false

/-- Message carried by an optional error: err.Error() in Go. The sentinel
redis.Nil stringifies to "redis: nil"; a missing error has no message. -/
def errMessage : Option RedisErr → String
  | some (RedisErr.other m) => m
  | some RedisErr.nilErr => "redis: nil"
  | none => ""

/-- Observable side effects of one request, in program order: tracing span
operations, the store network call, and the HTTP write. -/
inductive Event where
  | spanStart (name : String) : Event
  | setAttr (key val : String) : Event
  | recordError (msg : String) : Event
  | setStatusError (msg : String) : Event
  | storeCall (id : String) : Event
  | httpAbort (status : Nat) (msg : String) : Event
  | httpJSON (status : Nat) (fields : List (String × String)) : Event
  | spanEnd (name : String) : Event
deriving DecidableEq, Repr

/-- HTTP response produced by the handler: status code and, on the success
path only, a JSON object given as its field list. Aborted requests carry no
body. -/
structure Response where
  status : Nat
  body : Option (List (String × String))
deriving DecidableEq, Repr

/-- An inbound HTTP request as the handler sees it: the gin path parameters
and the incoming trace context (c.Request.Context()).  The trace context
only parents the request span; it carries no data the handler reads. -/
structure Request where
  params : List (String × String)
  ctxTrace : String
deriving DecidableEq, Repr

/-- gin c.Param(key): the captured path parameter, or the empty string when
absent. -/
def Request.param (r : Request) (key : String) : String :=
  match r.params.lookup key with
  | some v => v
  | none => ""

/-- Client.Get (src/db/redis.go:34-38): starts a span named "get" carrying
the id attribute, performs the redis call, ends the span (deferred, so after
the call), and returns the underlying result unchanged. -/
def clientGet (store : Store) (id : String) : RedisResult × List Event :=
  (store id,
   [Event.spanStart "get", Event.setAttr "id" id, Event.storeCall id,
    Event.spanEnd "get"])

/-- handleErrorResponse (src/main.go:95-99): records the error on the span,
sets the span status to error with the message, and aborts the request with
the given status code.  Returns the resulting response and events. -/
def handleErrorResponse (statusCode : Nat) (msg : String) :
    Response × List Event :=
  ({ status := statusCode, body := none },
   [Event.recordError msg, Event.setStatusError msg,
    Event.httpAbort statusCode msg])

/-- Name of the request-scoped span started by getOrder. -/
def reqSpanName : String := "/order/:id"

/-- Body of getOrder after the span is started and the id extracted
(src/main.go:106-129): empty-id check, store call, and the three-way
classification of the result.  Events exclude the deferred request-span
end, which getOrder appends. -/
def getOrderCore (store : Store) (id : String) : Response × List Event :=
  if id = "" then
    ({ status := 400, body := none },
     [Event.recordError "id is empty", Event.setStatusError "id is empty",
      Event.httpAbort 400 "id is empty"])
  else
    let res := clientGet store id
    let order := (res.1).value
    let err := (res.1).err
    if err.isSome && !errIsNil err then
      let h := handleErrorResponse 500 (errMessage err)
      (h.1, Event.setAttr "order.id" id :: res.2 ++ h.2)
    else if order = "" || errIsNil err then
      let h := handleErrorResponse 404 "order not found"
      (h.1, Event.setAttr "order.id" id :: res.2 ++ h.2)
    else
      ({ status := 200, body := some [("order", order)] },
       Event.setAttr "order.id" id :: res.2 ++
        [Event.httpJSON 200 [("order", order)]])

/-- getOrder (src/main.go:101-130): starts the request span (ended by defer
on every exit path, hence last in the event list), extracts the id path
parameter, and runs the handler body. -/
def getOrder (store : Store) (req : Request) : Response × List Event :=
  let core := getOrderCore store (req.param "id")
  (core.1,
   Event.spanStart reqSpanName :: core.2 ++ [Event.spanEnd reqSpanName])

/-- Number of events satisfying a predicate. -/
def countP (p : Event → Bool) (es : List Event) : Nat := (es.filter p).length

/-- Matches the start of the span with the given name. -/
def isSpanStart (name : String) : Event → Bool
  | Event.spanStart n => n == name
  | _ => false

/-- Matches the end of the span with the given name. -/
def isSpanEnd (name : String) : Event → Bool
  | Event.spanEnd n => n == name
  | _ => false

/-- Matches a store network call. -/
def isStoreCall : Event → Bool
  | Event.storeCall _ => true
  | _ => false

/-- Matches an error being recorded on a span. -/
def isRecordError : Event → Bool
  | Event.recordError _ => true
  | _ => false

/-- Scans the event list checking that every HTTP abort with message m is
preceded by both a span error record of m and a span error status of m:
errors are put on the span before being turned into an HTTP status.
Accumulators hold the messages recorded and statused so far. -/
def errorsRecordedBefore : List Event → List String → List String → Bool
  | [], _, _ => true
  | Event.recordError m :: rest, recs, sts =>
      errorsRecordedBefore rest (m :: recs) sts
  | Event.setStatusError m :: rest, recs, sts =>
      errorsRecordedBefore rest recs (m :: sts)
  | Event.httpAbort _ m :: rest, recs, sts =>
      recs.contains m && sts.contains m && errorsRecordedBefore rest recs sts
  | _ :: rest, recs, sts => errorsRecordedBefore rest recs sts

/-- Underlying redis connection, identified by the address it was opened
against (redis.NewClient with Options.Addr). -/
structure RedisConn where
  addr : String
deriving DecidableEq, Repr

/-- db.Client (src/db/redis.go:13-16): the redis connection plus the tracer
(identified by its instrumentation name). -/
structure DbClient where
  redisClient : RedisConn
  tracerName : String
deriving DecidableEq, Repr

/-- Outcome of pinging the store at an address: none on success, or the
error message on failure.  The network is a parameter of the model. -/
def PingBehavior := String → Option String

/-- NewClient (src/db/redis.go:19-31): opens a connection at the address,
pings it, and fails with a wrapped ping error when the ping fails;
otherwise returns the client holding that connection and the "redis"
tracer. -/
def NewClient (ping : PingBehavior) (addr : String) :
    Except String DbClient :=
  let c : RedisConn := { addr := addr }
  match ping addr with
  | some e => Except.error ("ping: " ++ e)
  | none => Except.ok { redisClient := c, tracerName := "redis" }

/-- Client.Close (src/db/redis.go:40-42): calls c.redisClient.Close() and
returns nothing, so whatever error the underlying close produces is
discarded.  The result is the error surfaced to the caller. -/
def dbClientCloseSurfaced (redisCloseErr : Option String) : Option String :=
  none

/-- server.stop (src/main.go:57-62): when s.db.Close() fails, returns
errors.Join of the wrapped close error and s.httpServer.Close(); otherwise
returns s.httpServer.Close() alone.  errors.Join discards nil components,
so we model the result as the list of surfaced error messages. -/
def serverStop (dbCloseErr httpCloseErr : Option String) : List String :=
  match dbCloseErr with
  | some e => ("close redis: " ++ e) :: httpCloseErr.toList
  | none => httpCloseErr.toList

/-- Errors surfaced by the shutdown path main actually runs
(src/main.go:143-163): defer c.Close() calls db.Client.Close, which has no
return value, and the error of s.Shutdown(context.Background()) is
discarded, so neither failure reaches the caller. -/
def mainShutdownSurfaced (redisCloseErr httpShutdownErr : Option String) :
    List String :=
  (dbClientCloseSurfaced redisCloseErr).toList

/-- The http.Server of the unused server struct, identified by its listen
address. -/
structure HttpServer where
  addr : String
deriving DecidableEq, Repr

/-- server (src/main.go:31-34): the struct holds the http.Server and a
redis client pointer; none models a nil pointer. -/
structure ServerS where
  httpServer : HttpServer
  db : Option RedisConn
deriving DecidableEq, Repr

/-- newServer (src/main.go:36-51): builds the http.Server, constructs a
redis client c at redisAddr and pings it, failing on ping error; on success
returns a server literal that sets only the httpServer field, so db keeps
the zero value nil (the constructed c is discarded). -/
def newServer (ping : PingBehavior) (serverAddr redisAddr : String) :
    Except String ServerS :=
  let httpServer : HttpServer := { addr := serverAddr }
  let _c : RedisConn := { addr := redisAddr }
  match ping redisAddr with
  | some e => Except.error ("ping redis: " ++ e)
  | none => Except.ok { httpServer := httpServer, db := none }

/-- The client on which server.stop invokes Close (src/main.go:58 reads
s.db.Close()). -/
def serverStopCloseTarget (s : ServerS) : Option RedisConn := s.db

/-- Fixture: a store holding a non-empty record under every key. -/
def storeWidget : Store := fun _ => { value := "widget-order", err := none }

/-- Fixture: a store where every lookup reports the redis.Nil sentinel. -/
def storeAbsent : Store :=
  fun _ => { value := "", err := some RedisErr.nilErr }

/-- Fixture: a store holding an empty value under every key, with no
error. -/
def storeEmptyVal : Store := fun _ => { value := "", err := none }

/-- Fixture: a store whose lookups fail with a transport error. -/
def storeDown : Store :=
  fun _ => { value := "", err := some (RedisErr.other "connection refused") }

/-- Fixture: a request whose id path parameter is "42". -/
def reqWithId : Request := { params := [("id", "42")], ctxTrace := "ctxA" }

/-- Fixture: a request with no captured id parameter, so Param returns the
empty string. -/
def reqNoId : Request := { params := [], ctxTrace := "ctxB" }

lemma core_empty (store : Store) :
    getOrderCore store "" =
    ({ status := 400, body := none },
     [Event.recordError "id is empty", Event.setStatusError "id is empty",
      Event.httpAbort 400 "id is empty"]) := rfl

lemma core_other (store : Store) (id v m : String) (hid : id ≠ "")
    (h : store id = { value := v, err := some (RedisErr.other m) }) :
    getOrderCore store id =
    ({ status := 500, body := none },
     [Event.setAttr "order.id" id, Event.spanStart "get",
      Event.setAttr "id" id, Event.storeCall id, Event.spanEnd "get",
      Event.recordError m, Event.setStatusError m, Event.httpAbort 500 m]) := by
  simp [getOrderCore, hid, clientGet, h, errIsNil, errMessage,
    handleErrorResponse]

lemma core_nil (store : Store) (id v : String) (hid : id ≠ "")
    (h : store id = { value := v, err := some RedisErr.nilErr }) :
    getOrderCore store id =
    ({ status := 404, body := none },
     [Event.setAttr "order.id" id, Event.spanStart "get",
      Event.setAttr "id" id, Event.storeCall id, Event.spanEnd "get",
      Event.recordError "order not found",
      Event.setStatusError "order not found",
      Event.httpAbort 404 "order not found"]) := by
  simp [getOrderCore, hid, clientGet, h, errIsNil, errMessage,
    handleErrorResponse]

lemma core_emptyVal (store : Store) (id : String) (hid : id ≠ "")
    (h : store id = { value := "", err := none }) :
    getOrderCore store id =
    ({ status := 404, body := none },
     [Event.setAttr "order.id" id, Event.spanStart "get",
      Event.setAttr "id" id, Event.storeCall id, Event.spanEnd "get",
      Event.recordError "order not found",
      Event.setStatusError "order not found",
      Event.httpAbort 404 "order not found"]) := by
  simp [getOrderCore, hid, clientGet, h, errIsNil, errMessage,
    handleErrorResponse]

lemma core_ok (store : Store) (id v : String) (hid : id ≠ "") (hv : v ≠ "")
    (h : store id = { value := v, err := none }) :
    getOrderCore store id =
    ({ status := 200, body := some [("order", v)] },
     [Event.setAttr "order.id" id, Event.spanStart "get",
      Event.setAttr "id" id, Event.storeCall id, Event.spanEnd "get",
      Event.httpJSON 200 [("order", v)]]) := by
  simp [getOrderCore, hid, hv, clientGet, h, errIsNil, errMessage,
    handleErrorResponse]

/-- The not-found hypothesis of the handler: the store lookup at the key
either reports the redis.Nil sentinel or succeeds with an empty value. -/
def notFoundAt (store : Store) (id : String) : Prop :=
  errIsNil (store id).err = true ∨
    ((store id).err = none ∧ (store id).value = "")

lemma core_notFound (store : Store) (id : String) (hid : id ≠ "")
    (h : notFoundAt store id) :
    getOrderCore store id =
    ({ status := 404, body := none },
     [Event.setAttr "order.id" id, Event.spanStart "get",
      Event.setAttr "id" id, Event.storeCall id, Event.spanEnd "get",
      Event.recordError "order not found",
      Event.setStatusError "order not found",
      Event.httpAbort 404 "order not found"]) := by
  rcases h with h | ⟨he, hv⟩
  · rcases hs : store id with ⟨v, e⟩
    rcases e with _ | e
    · rw [hs] at h; simp [errIsNil] at h
    · rcases e with _ | m
      · exact core_nil store id v hid hs
      · rw [hs] at h; simp [errIsNil] at h
  · rcases hs : store id with ⟨v, e⟩
    rw [hs] at he hv
    simp only at he hv
    subst he hv
    exact core_emptyVal store id hid hs

/-- C1: for every request whose id is non-empty, if the store call reports
the not-found error, or returns no error but an empty value, the handler
responds HTTP 404 with no body; moreover the two cases are treated
identically, producing the same response and the same trace events. -/
theorem getOrder_notFound_responds_404 (store storeB : Store) (req : Request)
    (hid : req.param "id" ≠ "")
    (h : notFoundAt store (req.param "id"))
    (hB : notFoundAt storeB (req.param "id")) :
    (getOrder store req).1 = { status := 404, body := none } ∧
    getOrder store req = getOrder storeB req := by
  have e1 := core_notFound store (req.param "id") hid h
  have e2 := core_notFound storeB (req.param "id") hid hB
  constructor
  · simp [getOrder, e1]
  · simp [getOrder, e1, e2]

/-- Witness for C1: id "42", one store reporting redis.Nil and one
returning an empty value with no error, both yielding the same 404
response. -/
theorem getOrder_notFound_responds_404_witness :
    reqWithId.param "id" ≠ "" ∧
    notFoundAt storeAbsent (reqWithId.param "id") ∧
    notFoundAt storeEmptyVal (reqWithId.param "id") ∧
    ((getOrder storeAbsent reqWithId).1 = { status := 404, body := none } ∧
      getOrder storeAbsent reqWithId = getOrder storeEmptyVal reqWithId) :=
  ⟨by decide, Or.inl (by decide), Or.inr (by decide),
    getOrder_notFound_responds_404 storeAbsent storeEmptyVal reqWithId
      (by decide) (Or.inl (by decide)) (Or.inr (by decide))⟩

/-- C2: for every request whose id is non-empty, if the store call returns
a non-empty value and no error, the handler responds HTTP 200 with a JSON
body whose single field order holds that value. -/
theorem getOrder_found_responds_200 (store : Store) (req : Request)
    (hid : req.param "id" ≠ "")
    (he : (store (req.param "id")).err = none)
    (hv : (store (req.param "id")).value ≠ "") :
    (getOrder store req).1 =
      { status := 200,
        body := some [("order", (store (req.param "id")).value)] } := by
  rcases hs : store (req.param "id") with ⟨v, e⟩
  rw [hs] at he hv
  simp only at he hv
  subst he
  simp [getOrder, core_ok store (req.param "id") v hid hv hs, hs]

/-- Witness for C2: id "42" against a store holding "widget-order" yields
200 with the single order field. -/
theorem getOrder_found_responds_200_witness :
    reqWithId.param "id" ≠ "" ∧
    (storeWidget (reqWithId.param "id")).err = none ∧
    (storeWidget (reqWithId.param "id")).value ≠ "" ∧
    (getOrder storeWidget reqWithId).1 =
      { status := 200, body := some [("order", "widget-order")] } :=
  ⟨by decide, by decide, by decide,
    getOrder_found_responds_200 storeWidget reqWithId (by decide) (by decide)
      (by decide)⟩

/-- C3: for every request whose extracted id is the empty string, the
handler responds HTTP 400 and performs zero calls to the store. -/
theorem getOrder_emptyId_400_no_store_call (store : Store) (req : Request)
    (hid : req.param "id" = "") :
    (getOrder store req).1 = { status := 400, body := none } ∧
    countP isStoreCall (getOrder store req).2 = 0 := by
  constructor
  · simp [getOrder, hid, core_empty]
  · simp [getOrder, hid, core_empty, countP, isStoreCall]

/-- Witness for C3: a request with no id parameter against a fully
populated store. -/
theorem getOrder_emptyId_400_no_store_call_witness :
    reqNoId.param "id" = "" ∧
    ((getOrder storeWidget reqNoId).1 = { status := 400, body := none } ∧
      countP isStoreCall (getOrder storeWidget reqNoId).2 = 0) :=
  ⟨by decide,
    getOrder_emptyId_400_no_store_call storeWidget reqNoId (by decide)⟩

/-- C4: for every request whose id is non-empty, if the store call returns
any error other than the not-found sentinel, the handler responds HTTP 500
and records that underlying error on the span (error record and error
status, both with its message). -/
theorem getOrder_backendError_500 (store : Store) (req : Request) (m : String)
    (hid : req.param "id" ≠ "")
    (h : (store (req.param "id")).err = some (RedisErr.other m)) :
    (getOrder store req).1 = { status := 500, body := none } ∧
    Event.recordError m ∈ (getOrder store req).2 ∧
    Event.setStatusError m ∈ (getOrder store req).2 := by
  rcases hs : store (req.param "id") with ⟨v, e⟩
  rw [hs] at h
  simp only at h
  subst h
  have hc := core_other store (req.param "id") v m hid hs
  refine ⟨by simp [getOrder, hc], ?_, ?_⟩ <;> simp [getOrder, hc]

/-- Witness for C4: id "42" against a store failing with a connection
error. -/
theorem getOrder_backendError_500_witness :
    reqWithId.param "id" ≠ "" ∧
    (storeDown (reqWithId.param "id")).err =
      some (RedisErr.other "connection refused") ∧
    ((getOrder storeDown reqWithId).1 = { status := 500, body := none } ∧
      Event.recordError "connection refused" ∈
        (getOrder storeDown reqWithId).2 ∧
      Event.setStatusError "connection refused" ∈
        (getOrder storeDown reqWithId).2) :=
  ⟨by decide, by decide,
    getOrder_backendError_500 storeDown reqWithId "connection refused"
      (by decide) (by decide)⟩

lemma lifecycle_of_core (store : Store) (req : Request) (tail : List Event)
    (hid : req.param "id" ≠ "")
    (hcore : (getOrderCore store (req.param "id")).2 =
      Event.setAttr "order.id" (req.param "id") :: Event.spanStart "get" ::
      Event.setAttr "id" (req.param "id") ::
      Event.storeCall (req.param "id") :: Event.spanEnd "get" :: tail)
    (h1 : countP (isSpanStart reqSpanName) tail = 0)
    (h2 : countP (isSpanEnd reqSpanName) tail = 0)
    (h3 : countP (isSpanStart "get") tail = 0)
    (h4 : countP (isSpanEnd "get") tail = 0) :
    countP (isSpanStart reqSpanName) (getOrder store req).2 = 1 ∧
    countP (isSpanEnd reqSpanName) (getOrder store req).2 = 1 ∧
    (∃ pre, (getOrder store req).2 = pre ++ [Event.spanEnd reqSpanName]) ∧
    countP (isSpanStart "get") (getOrder store req).2 =
      (if req.param "id" = "" then 0 else 1) ∧
    countP (isSpanEnd "get") (getOrder store req).2 =
      (if req.param "id" = "" then 0 else 1) ∧
    (req.param "id" ≠ "" →
      ∃ mid, (getOrder store req).2 =
        Event.spanStart reqSpanName ::
        Event.setAttr "order.id" (req.param "id") ::
        Event.spanStart "get" :: Event.setAttr "id" (req.param "id") ::
        Event.storeCall (req.param "id") :: Event.spanEnd "get" ::
        (mid ++ [Event.spanEnd reqSpanName])) := by
  simp only [getOrder, hcore]
  refine ⟨?_, ?_, ⟨_, rfl⟩, ?_, ?_, fun _ => ⟨tail, by simp⟩⟩
  · simpa [countP, isSpanStart, reqSpanName, List.filter] using h1
  · simpa [countP, isSpanEnd, reqSpanName, List.filter] using h2
  · simp only [hid, if_neg]
    simpa [countP, isSpanStart, reqSpanName, List.filter] using h3
  · simp only [hid, if_neg]
    simpa [countP, isSpanEnd, reqSpanName, List.filter] using h4

/-- C5: on every exit path the request span started at handler entry is
started and ended exactly once, the span end is the last observable event
(the deferred end runs before the handler returns), the store-call span
"get" is started and ended exactly once unless the empty-id check
short-circuits (then zero times), and when present the "get" span starts
and ends strictly inside the request span (nesting). -/
theorem getOrder_span_lifecycle (store : Store) (req : Request) :
    countP (isSpanStart reqSpanName) (getOrder store req).2 = 1 ∧
    countP (isSpanEnd reqSpanName) (getOrder store req).2 = 1 ∧
    (∃ pre, (getOrder store req).2 = pre ++ [Event.spanEnd reqSpanName]) ∧
    countP (isSpanStart "get") (getOrder store req).2 =
      (if req.param "id" = "" then 0 else 1) ∧
    countP (isSpanEnd "get") (getOrder store req).2 =
      (if req.param "id" = "" then 0 else 1) ∧
    (req.param "id" ≠ "" →
      ∃ mid, (getOrder store req).2 =
        Event.spanStart reqSpanName ::
        Event.setAttr "order.id" (req.param "id") ::
        Event.spanStart "get" :: Event.setAttr "id" (req.param "id") ::
        Event.storeCall (req.param "id") :: Event.spanEnd "get" ::
        (mid ++ [Event.spanEnd reqSpanName])) := by
  by_cases hid : req.param "id" = ""
  · rw [getOrder, hid, core_empty]
    refine ⟨?_, ?_, ⟨_, rfl⟩, ?_, ?_, fun h => absurd rfl h⟩ <;>
      simp [hid, countP, isSpanStart, isSpanEnd, reqSpanName, List.filter]
  · rcases hs : store (req.param "id") with ⟨v, e⟩
    rcases e with _ | e
    · by_cases hv : v = ""
      · subst hv
        refine lifecycle_of_core store req
          [Event.recordError "order not found",
           Event.setStatusError "order not found",
           Event.httpAbort 404 "order not found"] hid ?_ ?_ ?_ ?_ ?_
        · rw [core_emptyVal store (req.param "id") hid hs]
        all_goals simp [countP, isSpanStart, isSpanEnd, reqSpanName,
          List.filter]
      · refine lifecycle_of_core store req
          [Event.httpJSON 200 [("order", v)]] hid ?_ ?_ ?_ ?_ ?_
        · rw [core_ok store (req.param "id") v hid hv hs]
        all_goals simp [countP, isSpanStart, isSpanEnd, reqSpanName,
          List.filter]
    · rcases e with _ | m
      · refine lifecycle_of_core store req
          [Event.recordError "order not found",
           Event.setStatusError "order not found",
           Event.httpAbort 404 "order not found"] hid ?_ ?_ ?_ ?_ ?_
        · rw [core_nil store (req.param "id") v hid hs]
        all_goals simp [countP, isSpanStart, isSpanEnd, reqSpanName,
          List.filter]
      · refine lifecycle_of_core store req
          [Event.recordError m, Event.setStatusError m,
           Event.httpAbort 500 m] hid ?_ ?_ ?_ ?_ ?_
        · rw [core_other store (req.param "id") v m hid hs]
        all_goals simp [countP, isSpanStart, isSpanEnd, reqSpanName,
          List.filter]

/-- Witness for C5: the nesting decomposition instantiated at id "42"
against the populated store. -/
theorem getOrder_span_lifecycle_witness :
    reqWithId.param "id" ≠ "" ∧
    (∃ mid, (getOrder storeWidget reqWithId).2 =
      Event.spanStart reqSpanName ::
      Event.setAttr "order.id" (reqWithId.param "id") ::
      Event.spanStart "get" :: Event.setAttr "id" (reqWithId.param "id") ::
      Event.storeCall (reqWithId.param "id") :: Event.spanEnd "get" ::
      (mid ++ [Event.spanEnd reqSpanName])) :=
  ⟨by decide,
    (getOrder_span_lifecycle storeWidget reqWithId).2.2.2.2.2 (by decide)⟩

/-- C6: evaluation of the shutdown code at a failing store close.  The
shutdown path main actually runs surfaces no error at all when the redis
close fails, because db.Client.Close discards the underlying error: the
store-close failure IS silently dropped.  The combining behaviour the
claim describes exists only in server.stop, which joins the wrapped
store-close error with the listener-close error but is never invoked by
main. -/
theorem shutdown_drops_store_close_error :
    mainShutdownSurfaced (some "connection reset by peer")
      (some "listener close failed") = [] ∧
    serverStop (some "connection reset by peer")
      (some "listener close failed") =
      ["close redis: connection reset by peer", "listener close failed"] := by
  decide

/-- C7: for every address, NewClient pings the store at that address and
returns an error exactly when the ping fails (wrapping the ping error and
constructing no client); on ping success it returns a client holding the
connection opened at that address and the redis tracer, with no error. -/
theorem NewClient_ping_gates_construction (ping : PingBehavior)
    (addr : String) :
    (ping addr = none →
      NewClient ping addr =
        Except.ok { redisClient := { addr := addr }, tracerName := "redis" }) ∧
    (∀ e, ping addr = some e →
      NewClient ping addr = Except.error ("ping: " ++ e)) := by
  constructor
  · intro h; simp [NewClient, h]
  · intro e h; simp [NewClient, h]

/-- Witness for C7: a reachable store yields a client; an unreachable one
yields the wrapped ping error. -/
theorem NewClient_ping_gates_construction_witness :
    ((fun _ => none : PingBehavior) "localhost:6379" = none ∧
      NewClient (fun _ => none) "localhost:6379" =
        Except.ok
          { redisClient := { addr := "localhost:6379" },
            tracerName := "redis" }) ∧
    ((fun _ => some "refused" : PingBehavior) "localhost:6379" =
        some "refused" ∧
      NewClient (fun _ => some "refused") "localhost:6379" =
        Except.error "ping: refused") :=
  ⟨⟨rfl,
      (NewClient_ping_gates_construction (fun _ => none) "localhost:6379").1
        rfl⟩,
    ⟨rfl,
      (NewClient_ping_gates_construction (fun _ => some "refused")
          "localhost:6379").2 "refused" rfl⟩⟩

/-- C8: the response (status code and body) is determined by the id path
parameter and the store state alone: two requests extracting the same id
against the same store receive identical statuses and identical bodies,
whatever else differs between them. -/
theorem getOrder_deterministic_in_id (store : Store) (req1 req2 : Request)
    (h : req1.param "id" = req2.param "id") :
    (getOrder store req1).1.status = (getOrder store req2).1.status ∧
    (getOrder store req1).1.body = (getOrder store req2).1.body := by
  simp [getOrder, h]

/-- Witness for C8: two requests with id "42" differing in extra
parameters and trace context receive the same status and body. -/
theorem getOrder_deterministic_in_id_witness :
    ({ params := [("id", "42")], ctxTrace := "first" } : Request).param "id" =
      ({ params := [("id", "42"), ("x", "y")], ctxTrace := "second" } :
        Request).param "id" ∧
    ((getOrder storeWidget
        { params := [("id", "42")], ctxTrace := "first" }).1.status =
      (getOrder storeWidget
        { params := [("id", "42"), ("x", "y")],
          ctxTrace := "second" }).1.status ∧
      (getOrder storeWidget
        { params := [("id", "42")], ctxTrace := "first" }).1.body =
      (getOrder storeWidget
        { params := [("id", "42"), ("x", "y")],
          ctxTrace := "second" }).1.body) :=
  ⟨by decide,
    getOrder_deterministic_in_id storeWidget
      { params := [("id", "42")], ctxTrace := "first" }
      { params := [("id", "42"), ("x", "y")], ctxTrace := "second" }
      (by decide)⟩

/-- C9: at most one error is recorded on the request span per request, and
every HTTP abort (the error responses 400, 404, 500) is preceded by a span
error record and a span error status carrying the same message: every
per-request error reaches the span before it becomes an HTTP status. -/
theorem getOrder_error_recording (store : Store) (req : Request) :
    countP isRecordError (getOrder store req).2 ≤ 1 ∧
    errorsRecordedBefore (getOrder store req).2 [] [] = true := by
  by_cases hid : req.param "id" = ""
  · rw [getOrder, hid, core_empty]
    exact ⟨by decide, by decide⟩
  · rcases hs : store (req.param "id") with ⟨v, e⟩
    rcases e with _ | e
    · by_cases hv : v = ""
      · subst hv
        rw [getOrder, core_emptyVal store (req.param "id") hid hs]
        constructor <;>
          simp [countP, isRecordError, errorsRecordedBefore, List.filter]
      · rw [getOrder, core_ok store (req.param "id") v hid hv hs]
        constructor <;>
          simp [countP, isRecordError, errorsRecordedBefore, List.filter]
    · rcases e with _ | m
      · rw [getOrder, core_nil store (req.param "id") v hid hs]
        constructor <;>
          simp [countP, isRecordError, errorsRecordedBefore, List.filter]
      · rw [getOrder, core_other store (req.param "id") v m hid hs]
        constructor <;>
          simp [countP, isRecordError, errorsRecordedBefore, List.filter]

/-- C10: whenever newServer succeeds, the returned server has a nil db
field: the redis client constructed and pinged inside newServer is
discarded, and server.stop on that server would invoke Close on a nil
client. -/
theorem newServer_discards_db_client (ping : PingBehavior)
    (serverAddr redisAddr : String) (s : ServerS)
    (h : newServer ping serverAddr redisAddr = Except.ok s) :
    s.db = none ∧ serverStopCloseTarget s = none := by
  rcases hp : ping redisAddr with _ | e
  · rw [newServer] at h
    simp only [hp] at h
    cases h
    exact ⟨rfl, rfl⟩
  · rw [newServer] at h
    simp [hp] at h

/-- Witness for C10: a successful ping produces a server whose db field is
nil. -/
theorem newServer_discards_db_client_witness :
    newServer (fun _ => none) ":9911" "localhost:6379" =
      Except.ok { httpServer := { addr := ":9911" }, db := none } ∧
    ({ httpServer := { addr := ":9911" }, db := none } : ServerS).db = none :=
  ⟨rfl,
    (newServer_discards_db_client (fun _ => none) ":9911" "localhost:6379"
        { httpServer := { addr := ":9911" }, db := none } rfl).1⟩

end OtelOrders
